import Mathlib

/-!
Shallow embedding of the Infineon PDStack middleware headers
(`cy_pdstack_common.h`, `cy_pdstack_timer_id.h`) together with the
protocol-layer, policy-engine and DPM behaviour they declare, and proofs
about that embedding.  Machine integers are modelled as `Nat` with explicit
`% 2 ^ w` truncation where overflow matters; C bit operations `>>`, `<<`,
`&`, `|` are modelled with the corresponding `Nat` bitwise operations.
-/

namespace PdStack

/-! ## Wire-protocol constants from `cy_pdstack_common.h` -/

/-- `CY_PD_MAX_MESSAGE_ID`: maximum message ID value in PD header. -/
def CY_PD_MAX_MESSAGE_ID : Nat := 7

/-- `CY_PD_MAX_SOP_TYPES`: max SOP types excluding hard reset, cable reset and debug SOPs. -/
def CY_PD_MAX_SOP_TYPES : Nat := 3

/-- `CY_PD_MAX_SRC_CAP_TRY`: number of unacknowledged source CAP messages used to
determine if the device connected is PD capable or not. -/
def CY_PD_MAX_SRC_CAP_TRY : Nat := 6

/-- `CY_PD_MAX_SRC_CAP_COUNT`: maximum retries of source capability messages. -/
def CY_PD_MAX_SRC_CAP_COUNT : Nat := 50

/-- `CY_PD_MAX_HARD_RESET_COUNT`: maximum hard reset retry count. -/
def CY_PD_MAX_HARD_RESET_COUNT : Nat := 3

/-- `CY_PD_MAX_EXTD_PKT_SIZE`: maximum extended message size in bytes. -/
def CY_PD_MAX_EXTD_PKT_SIZE : Nat := 260

/-- `CY_PD_MAX_EXTD_MSG_LEGACY_LEN`: maximum legacy extended message size in bytes. -/
def CY_PD_MAX_EXTD_MSG_LEGACY_LEN : Nat := 26

/-- `CY_PD_VOLT_PER_UNIT`: voltage unit (mV) used in PDOs. -/
def CY_PD_VOLT_PER_UNIT : Nat := 50

/-- `CY_PD_VOLT_PER_UNIT_PPS`: voltage unit (mV) used in PPS PDOs. -/
def CY_PD_VOLT_PER_UNIT_PPS : Nat := 100

/-- `CY_PD_CURRENT_PPS_MULTIPLIER`: multiplier used to convert from the current unit
used in other PDOs to that used in PPS PDO/RDO. -/
def CY_PD_CURRENT_PPS_MULTIPLIER : Nat := 5

/-- `CY_PD_CURRENT_AVS_MULTIPLIER`: multiplier used to convert from the current unit
used in other PDOs to that used in AVS PDO/RDO. -/
def CY_PD_CURRENT_AVS_MULTIPLIER : Nat := 4

/-- `CY_PD_CUR_PER_UNIT`: current unit (mA) used in PDOs. -/
def CY_PD_CUR_PER_UNIT : Nat := 10

/-- `CY_PD_EPR_AVS_SMALL_STEP_VOLTAGE`: size of EPR AVS small step (mV). -/
def CY_PD_EPR_AVS_SMALL_STEP_VOLTAGE : Nat := 1000

/-- `CY_PD_2_SENDER_RESPONSE_TIMER_PERIOD`: sender response timeout period in ms for PD2. -/
def CY_PD_2_SENDER_RESPONSE_TIMER_PERIOD : Nat := 27

/-- `CY_PD_3_SENDER_RESPONSE_TIMER_PERIOD`: sender response timeout period in ms for PD3. -/
def CY_PD_3_SENDER_RESPONSE_TIMER_PERIOD : Nat := 30

/-! ## PD header compose/decode macros from `cy_pdstack_common.h` -/

/-- `CY_PD_HEADER_REV3(type, id, cnt, ext)`: create a PD 3.0 header given message
type, ID, count, and extended message indication. -/
def CY_PD_HEADER_REV3 (ty msgId cnt ext : Nat) : Nat :=
  ty ||| (msgId <<< 9) ||| (cnt <<< 12) ||| (ext <<< 15)

/-- `CY_PD_GET_PD_HDR_CNT(header)`: return message count from the header. -/
def CY_PD_GET_PD_HDR_CNT (header : Nat) : Nat := (header >>> 12) &&& 0x7

/-- `CY_PD_GET_PD_HDR_PR_ROLE(header)`: return the PR role bit from the header. -/
def CY_PD_GET_PD_HDR_PR_ROLE (header : Nat) : Nat := (header >>> 8) &&& 0x1

/-- `CY_PD_GET_PD_HDR_CBL_PLUG(header)`: return cable plug bit from the header. -/
def CY_PD_GET_PD_HDR_CBL_PLUG (header : Nat) : Nat := (header >>> 8) &&& 0x1

/-- `CY_PD_GET_PD_HDR_SPEC_REV(header)`: return spec revision from the header. -/
def CY_PD_GET_PD_HDR_SPEC_REV (header : Nat) : Nat := (header >>> 6) &&& 0x3

/-- `CY_PD_GET_PD_HDR_DR_ROLE(header)`: return the DR role bit from the header. -/
def CY_PD_GET_PD_HDR_DR_ROLE (header : Nat) : Nat := (header >>> 5) &&& 0x1

/-- `CY_PD_GET_PD_HDR_ID(header)`: return message ID from the header. -/
def CY_PD_GET_PD_HDR_ID (header : Nat) : Nat := (header >>> 9) &&& 0x7

/-- `CY_PD_GET_PD_HDR_TYPE(header)`: return message type from the header.
The source masks with `0xFu`, keeping only the low four bits. -/
def CY_PD_GET_PD_HDR_TYPE (header : Nat) : Nat := header &&& 0xF

/-- Modelled from the spec: the extended-message flag is header bit 15
("PD header: 16 bits - [15 extended] ...").  `cy_pdstack_common.h` declares no
accessor macro for this bit; the bit-field union `cy_pd_pd_hdr_t` that carries
it lives in the PDL headers outside this repository. -/
def getPdHdrExtd (header : Nat) : Nat := (header >>> 15) &&& 0x1

/-- The field at bits `lo + width - 1 : lo` of a header, written from the spec's
layout table ("[15 extended][14:12 count][11:9 msgID][8 PRrole/CblPlug]
[7:6 revision][5 DRrole][4:0 type]") for comparison with the source accessors. -/
def hdrBits (lo width header : Nat) : Nat := header / 2 ^ lo % 2 ^ width

/-! ## Bitwise helper lemmas -/

lemma and_mask_eq_mod (x k : Nat) : x &&& (2 ^ k - 1) = x % 2 ^ k :=
  Nat.and_pow_two_sub_one_eq_mod x k

lemma and_one_eq_mod (x : Nat) : x &&& 1 = x % 2 :=
  Nat.and_one_is_mod x

lemma and_three_eq_mod (x : Nat) : x &&& 3 = x % 4 := by
  simpa using and_mask_eq_mod x 2

lemma and_seven_eq_mod (x : Nat) : x &&& 7 = x % 8 := by
  simpa using and_mask_eq_mod x 3

lemma and_fifteen_eq_mod (x : Nat) : x &&& 15 = x % 16 := by
  simpa using and_mask_eq_mod x 4

end PdStack

namespace PdStack

/-! ## Theorems about the header accessors -/

/-- C2 (counterexample): the claim as stated is false.  The spec says the message
type is decoded from header bits 4:0, but `CY_PD_GET_PD_HDR_TYPE` masks with
`0xF`: at header `0x10` (bit 4 set) the accessor returns `0` while bits 4:0
hold `16`. -/
theorem C2_hdr_type_bits_counterexample :
    CY_PD_GET_PD_HDR_TYPE 0x10 ≠ hdrBits 0 5 0x10 := by
  decide

/-- C2 (amended): for every header value, the decode accessors return exactly the
fields of the layout [15 extended][14:12 count][11:9 msgID][8 PRrole/CblPlug]
[7:6 revision][5 DRrole][3:0 type] - i.e. the claimed layout except that the
message type is taken from bits 3:0 only, the accessor masking with `0xF`. -/
theorem C2_hdr_accessors_decode_layout (header : Nat) :
    CY_PD_GET_PD_HDR_CNT header = hdrBits 12 3 header ∧
    CY_PD_GET_PD_HDR_ID header = hdrBits 9 3 header ∧
    CY_PD_GET_PD_HDR_PR_ROLE header = hdrBits 8 1 header ∧
    CY_PD_GET_PD_HDR_CBL_PLUG header = hdrBits 8 1 header ∧
    CY_PD_GET_PD_HDR_SPEC_REV header = hdrBits 6 2 header ∧
    CY_PD_GET_PD_HDR_DR_ROLE header = hdrBits 5 1 header ∧
    CY_PD_GET_PD_HDR_TYPE header = hdrBits 0 4 header ∧
    getPdHdrExtd header = hdrBits 15 1 header := by
  unfold CY_PD_GET_PD_HDR_CNT CY_PD_GET_PD_HDR_ID CY_PD_GET_PD_HDR_PR_ROLE
    CY_PD_GET_PD_HDR_CBL_PLUG CY_PD_GET_PD_HDR_SPEC_REV CY_PD_GET_PD_HDR_DR_ROLE
    CY_PD_GET_PD_HDR_TYPE getPdHdrExtd hdrBits
  simp only [Nat.shiftRight_eq_div_pow]
  refine ⟨and_seven_eq_mod _, and_seven_eq_mod _, and_one_eq_mod _, and_one_eq_mod _,
    and_three_eq_mod _, and_one_eq_mod _, ?_, and_one_eq_mod _⟩
  simpa using and_fifteen_eq_mod header

/-- C9: composing a PD 3.0 header from a message type below 16, a message ID
below 8, a data-object count below 8 and an extended bit, then applying the
decode accessors, returns exactly the fields that were given. -/
theorem C9_header_compose_decode_roundtrip :
    ∀ ty < 16, ∀ msgId < 8, ∀ cnt < 8, ∀ ext < 2,
    CY_PD_GET_PD_HDR_TYPE (CY_PD_HEADER_REV3 ty msgId cnt ext) = ty ∧
    CY_PD_GET_PD_HDR_ID (CY_PD_HEADER_REV3 ty msgId cnt ext) = msgId ∧
    CY_PD_GET_PD_HDR_CNT (CY_PD_HEADER_REV3 ty msgId cnt ext) = cnt ∧
    getPdHdrExtd (CY_PD_HEADER_REV3 ty msgId cnt ext) = ext := by
  decide

/-- C9 witness: the round trip evaluated at type 5, ID 3, count 2, extended 1. -/
theorem C9_header_roundtrip_witness :
    CY_PD_GET_PD_HDR_TYPE (CY_PD_HEADER_REV3 5 3 2 1) = 5 ∧
    CY_PD_GET_PD_HDR_ID (CY_PD_HEADER_REV3 5 3 2 1) = 3 ∧
    CY_PD_GET_PD_HDR_CNT (CY_PD_HEADER_REV3 5 3 2 1) = 2 ∧
    getPdHdrExtd (CY_PD_HEADER_REV3 5 3 2 1) = 1 :=
  C9_header_compose_decode_roundtrip 5 (by decide) 3 (by decide) 2 (by decide) 1 (by decide)

end PdStack

namespace PdStack

/-! ## Sender-response timer selection (`CY_PDSTACK_UPDATE_SENDER_RESPONSE_TIMER`) -/

/-- Modelled from the spec: the PD specification revision in effect on the bus.
The enum `cy_en_pd_pd_rev_t` (`CY_PD_REV1` / `CY_PD_REV2` / `CY_PD_REV3`) is
declared in the PDL headers outside this repository. -/
inductive cy_en_pd_pd_rev
  | CY_PD_REV1
  | CY_PD_REV2
  | CY_PD_REV3
deriving DecidableEq

/-- `cy_stc_pdstack_pd_timer_params_t`: structure that encapsulates different
timing parameters (all fields are `uint8_t` millisecond counts). -/
structure cy_stc_pdstack_pd_timer_params where
  pd2senderRspTimeout : Nat
  pd3senderRspTimeout : Nat
  ccDebouncePeriod : Nat
  errRecovDelay : Nat
deriving DecidableEq

/-- The slice of `cy_stc_pdstack_dpm_status_t` that the sender-response macro
reads and writes: the live `senderRspTimeout` value and the pointed-to
`cy_stc_pdstack_pd_timer_params_t`. -/
structure SenderResponseCtx where
  senderRspTimeout : Nat
  ptrPdTimerParams : cy_stc_pdstack_pd_timer_params
deriving DecidableEq

/-- `CY_PDSTACK_UPDATE_SENDER_RESPONSE_TIMER(X,Y)`: update sender response timer
period based on PD revision on the bus.  The macro assigns
`pd2senderRspTimeout` when `Y == CY_PD_REV2` and `pd3senderRspTimeout`
otherwise. -/
def CY_PDSTACK_UPDATE_SENDER_RESPONSE_TIMER (x : SenderResponseCtx)
    (y : cy_en_pd_pd_rev) : SenderResponseCtx :=
  if y = .CY_PD_REV2 then
    { x with senderRspTimeout := x.ptrPdTimerParams.pd2senderRspTimeout }
  else
    { x with senderRspTimeout := x.ptrPdTimerParams.pd3senderRspTimeout }

/-- Modelled from the spec: the stack's default timer parameters bind the
sender-response periods to the header constants
(`CY_PD_2_SENDER_RESPONSE_TIMER_PERIOD` = 27, `CY_PD_3_SENDER_RESPONSE_TIMER_PERIOD` = 30);
the initialisation code that fills `cy_stc_pdstack_pd_timer_params_t` is not
under `src/`.  The debounce and error-recovery defaults follow the spec's
timing table (tCCDebounce 140 ms, tErrorRecovery 250 ms). -/
def defaultPdTimerParams : cy_stc_pdstack_pd_timer_params :=
  { pd2senderRspTimeout := CY_PD_2_SENDER_RESPONSE_TIMER_PERIOD
    pd3senderRspTimeout := CY_PD_3_SENDER_RESPONSE_TIMER_PERIOD
    ccDebouncePeriod := 140
    errRecovDelay := 250 }

/-- C3: with the default timer parameters, the sender-response timeout selected
after sending a message that expects a response is exactly 27 ms under PD 2.0
and exactly 30 ms under PD 3.x, the choice depending only on the revision in
effect on the bus. -/
theorem C3_sender_response_timeout_by_revision (x : SenderResponseCtx)
    (hdefault : x.ptrPdTimerParams = defaultPdTimerParams) :
    (CY_PDSTACK_UPDATE_SENDER_RESPONSE_TIMER x .CY_PD_REV2).senderRspTimeout = 27 ∧
    (CY_PDSTACK_UPDATE_SENDER_RESPONSE_TIMER x .CY_PD_REV3).senderRspTimeout = 30 ∧
    (∀ y : cy_en_pd_pd_rev, y ≠ .CY_PD_REV2 →
      (CY_PDSTACK_UPDATE_SENDER_RESPONSE_TIMER x y).senderRspTimeout =
        CY_PD_3_SENDER_RESPONSE_TIMER_PERIOD) := by
  refine ⟨?_, ?_, ?_⟩
  · simp [CY_PDSTACK_UPDATE_SENDER_RESPONSE_TIMER, hdefault, defaultPdTimerParams,
      CY_PD_2_SENDER_RESPONSE_TIMER_PERIOD]
  · simp [CY_PDSTACK_UPDATE_SENDER_RESPONSE_TIMER, hdefault, defaultPdTimerParams,
      CY_PD_3_SENDER_RESPONSE_TIMER_PERIOD]
  · intro y hy
    simp [CY_PDSTACK_UPDATE_SENDER_RESPONSE_TIMER, hy, hdefault, defaultPdTimerParams]

/-- C3 witness: the selection evaluated on a concrete context carrying the
default timer parameters. -/
theorem C3_sender_response_timeout_witness :
    (CY_PDSTACK_UPDATE_SENDER_RESPONSE_TIMER
      ⟨0, defaultPdTimerParams⟩ .CY_PD_REV2).senderRspTimeout = 27 ∧
    (CY_PDSTACK_UPDATE_SENDER_RESPONSE_TIMER
      ⟨0, defaultPdTimerParams⟩ .CY_PD_REV3).senderRspTimeout = 30 ∧
    (∀ y : cy_en_pd_pd_rev, y ≠ .CY_PD_REV2 →
      (CY_PDSTACK_UPDATE_SENDER_RESPONSE_TIMER ⟨0, defaultPdTimerParams⟩ y).senderRspTimeout =
        CY_PD_3_SENDER_RESPONSE_TIMER_PERIOD) :=
  C3_sender_response_timeout_by_revision ⟨0, defaultPdTimerParams⟩ rfl

/-! ## Data-object unit conversions -/

/-- C7: the data-object unit conversions use exactly the stated constants:
PDO voltage in 50 mV units, current in 10 mA units; PPS APDO voltage in 100 mV
units with current at 5 x the normal PDO unit (50 mA); AVS APDO current at
4 x the normal unit (40 mA); EPR AVS small voltage step 1000 mV. -/
theorem C7_unit_conversion_constants :
    CY_PD_VOLT_PER_UNIT = 50 ∧
    CY_PD_CUR_PER_UNIT = 10 ∧
    CY_PD_VOLT_PER_UNIT_PPS = 100 ∧
    CY_PD_VOLT_PER_UNIT_PPS = 2 * CY_PD_VOLT_PER_UNIT ∧
    CY_PD_CURRENT_PPS_MULTIPLIER = 5 ∧
    CY_PD_CURRENT_PPS_MULTIPLIER * CY_PD_CUR_PER_UNIT = 50 ∧
    CY_PD_CURRENT_AVS_MULTIPLIER = 4 ∧
    CY_PD_CURRENT_AVS_MULTIPLIER * CY_PD_CUR_PER_UNIT = 40 ∧
    CY_PD_EPR_AVS_SMALL_STEP_VOLTAGE = 1000 := by
  decide

end PdStack

namespace PdStack

/-! ## Protocol-layer receive discipline -/

/-- `cy_stc_pdstack_prl_cntrs_t`: structure to hold PD protocol message IDs and
flags.  Separate structures are maintained for each packet type
(SOP, SOP', and SOP''). -/
structure cy_stc_pdstack_prl_cntrs where
  /-- Message ID to be used on the next transmitted message. -/
  trMsgId : Nat
  /-- Message ID of last received message. -/
  recMsgId : Nat
  /-- Flag that indicates whether any message has been received so far. -/
  firstMsgRcvd : Bool
deriving DecidableEq

/-- Result of one hardware-signalled receive: the protocol counters for all
SOP classes afterwards, whether GoodCRC was emitted, and the header of the
message posted to the policy engine with PKT_RCVD (`none` when discarded). -/
structure PrlRxResult where
  ctrs : Fin CY_PD_MAX_SOP_TYPES → cy_stc_pdstack_prl_cntrs
  goodCrcSent : Bool
  pktPostedToPe : Option Nat

/-- Modelled from the spec: "On HW-signalled receive: parse header; if message
ID equals the last received ID for that SOP and the firstReceived flag is set,
silently emit GoodCRC and discard; otherwise emit GoodCRC, update last
received ID, set firstReceived, and post PKT_RCVD to PE with the deframed
message."  The protocol-layer `.c` implementation is not under `src/`; the
per-SOP counter structure `cy_stc_pdstack_prl_cntrs_t` and the header
accessor `CY_PD_GET_PD_HDR_ID` are taken from `cy_pdstack_common.h`. -/
def prlReceive (st : Fin CY_PD_MAX_SOP_TYPES → cy_stc_pdstack_prl_cntrs)
    (sop : Fin CY_PD_MAX_SOP_TYPES) (header : Nat) : PrlRxResult :=
  if CY_PD_GET_PD_HDR_ID header = (st sop).recMsgId ∧ (st sop).firstMsgRcvd then
    { ctrs := st, goodCrcSent := true, pktPostedToPe := none }
  else
    { ctrs := fun s =>
        if s = sop then
          { st sop with recMsgId := CY_PD_GET_PD_HDR_ID header, firstMsgRcvd := true }
        else st s
      goodCrcSent := true
      pktPostedToPe := some header }

/-- C1: on every hardware-signalled receive the protocol layer emits GoodCRC;
a message whose header ID equals the last received ID for that SOP class while
the first-message flag is set is discarded with all counters unchanged, and
every other message updates the last received ID of that SOP class to the
header's 3-bit ID (at most `CY_PD_MAX_MESSAGE_ID` = 7), sets the flag, leaves
the other SOP classes untouched, and is posted to the policy engine. -/
theorem C1_prl_receive_duplicate_filter
    (st : Fin CY_PD_MAX_SOP_TYPES → cy_stc_pdstack_prl_cntrs)
    (sop : Fin CY_PD_MAX_SOP_TYPES) (header : Nat) :
    (prlReceive st sop header).goodCrcSent = true ∧
    (CY_PD_GET_PD_HDR_ID header = (st sop).recMsgId ∧ (st sop).firstMsgRcvd →
      (prlReceive st sop header).pktPostedToPe = none ∧
      (prlReceive st sop header).ctrs = st) ∧
    (¬(CY_PD_GET_PD_HDR_ID header = (st sop).recMsgId ∧ (st sop).firstMsgRcvd) →
      (prlReceive st sop header).pktPostedToPe = some header ∧
      ((prlReceive st sop header).ctrs sop).recMsgId = CY_PD_GET_PD_HDR_ID header ∧
      ((prlReceive st sop header).ctrs sop).recMsgId ≤ CY_PD_MAX_MESSAGE_ID ∧
      ((prlReceive st sop header).ctrs sop).firstMsgRcvd = true ∧
      ((prlReceive st sop header).ctrs sop).trMsgId = (st sop).trMsgId ∧
      (∀ s, s ≠ sop → (prlReceive st sop header).ctrs s = st s)) := by
  unfold prlReceive
  by_cases h : CY_PD_GET_PD_HDR_ID header = (st sop).recMsgId ∧ (st sop).firstMsgRcvd
  · rw [if_pos h]
    exact ⟨rfl, fun _ => ⟨rfl, rfl⟩, fun hc => absurd h hc⟩
  · rw [if_neg h]
    refine ⟨rfl, fun hc => absurd hc h, fun _ => ⟨rfl, ?_, ?_, ?_, ?_, ?_⟩⟩
    · simp
    · simp only [if_pos rfl]
      show CY_PD_GET_PD_HDR_ID header ≤ CY_PD_MAX_MESSAGE_ID
      exact Nat.and_le_right
    · simp
    · simp
    · intro s hs
      simp [hs]

/-- C1 witness: a duplicate receive (ID 4 already recorded, flag set) is
GoodCRC'd and discarded, and a fresh receive (flag clear) is GoodCRC'd,
recorded and posted; evaluated on concrete counters and header `0x0842`
(message ID 4). -/
theorem C1_prl_receive_witness :
    (prlReceive (fun _ => ⟨0, 4, true⟩) ⟨0, by decide⟩ 0x0842).goodCrcSent = true ∧
    (prlReceive (fun _ => ⟨0, 4, true⟩) ⟨0, by decide⟩ 0x0842).pktPostedToPe = none ∧
    (prlReceive (fun _ => ⟨0, 4, true⟩) ⟨0, by decide⟩ 0x0842).ctrs =
      (fun _ => ⟨0, 4, true⟩) ∧
    (prlReceive (fun _ => ⟨0, 4, false⟩) ⟨0, by decide⟩ 0x0842).pktPostedToPe =
      some 0x0842 ∧
    ((prlReceive (fun _ => ⟨0, 4, false⟩) ⟨0, by decide⟩ 0x0842).ctrs
      ⟨0, by decide⟩).firstMsgRcvd = true :=
  have hdup := C1_prl_receive_duplicate_filter (fun _ => ⟨0, 4, true⟩)
    ⟨0, by decide⟩ 0x0842
  have hfresh := C1_prl_receive_duplicate_filter (fun _ => ⟨0, 4, false⟩)
    ⟨0, by decide⟩ 0x0842
  ⟨hdup.1, (hdup.2.1 ⟨by decide, rfl⟩).1, (hdup.2.1 ⟨by decide, rfl⟩).2,
    (hfresh.2.2 (by simp)).1, (hfresh.2.2 (by simp)).2.2.2.1⟩

end PdStack

namespace PdStack

/-! ## Policy-engine counters -/

/-- Modelled from the spec: the policy-engine mode relevant to counter
escalation - normal operation versus the Type-C ErrorRecovery fallback entered
when the hard-reset counter tops out ("Three consecutive hard-reset failures ->
Type-C ErrorRecovery -> port re-initialisation"). -/
inductive PeMode
  | normal
  | errorRecovery
deriving DecidableEq

/-- Modelled from the spec: the counter slice of the policy-engine status.
`hardResetCount` and `srcCapCount` are the `uint8_t` fields of
`cy_stc_pdstack_pe_status_t` in `cy_pdstack_common.h`; the unacknowledged
SRC_CAP count and the PD-capability classification realise "after 6
un-acknowledged SRC_CAP the partner is considered non-PD and the Type-C
fallback path is retained". -/
structure PeCounters where
  /-- Hard reset counter (`hardResetCount`). -/
  hardResetCount : Nat
  /-- Source capability counter (`srcCapCount`). -/
  srcCapCount : Nat
  /-- Consecutive unacknowledged Source_Capabilities transmissions. -/
  unackedSrcCapCount : Nat
  /-- Whether the partner is still considered PD capable. -/
  partnerPdCapable : Bool
  /-- Current mode of the engine. -/
  mode : PeMode
deriving DecidableEq

/-- Events that drive the policy-engine counters. -/
inductive PeEvent
  /-- The policy engine initiates (or repeats) a hard reset. -/
  | initiateHardReset
  /-- The policy engine attempts to send Source_Capabilities; the argument
  records whether the message was acknowledged by GoodCRC. -/
  | sendSrcCap (acked : Bool)
deriving DecidableEq

/-- The initial counter state after port initialisation. -/
def peInit : PeCounters :=
  { hardResetCount := 0, srcCapCount := 0, unackedSrcCapCount := 0,
    partnerPdCapable := true, mode := .normal }

/-- Modelled from the spec: "A hard-reset counter (max 3
(`CY_PD_MAX_HARD_RESET_COUNT`)) escalates to ErrorRecovery.  A
source-cap-message counter (max 50 (`CY_PD_MAX_SRC_CAP_COUNT`)) suppresses
further sends after a silent partner; after 6 (`CY_PD_MAX_SRC_CAP_TRY`)
un-acknowledged SRC_CAP the partner is considered non-PD and the Type-C
fallback path is retained."  ErrorRecovery re-initialises the port.  The
policy-engine `.c` implementation is not under `src/`; the counter maxima are
the constants of `cy_pdstack_common.h`. -/
def peStep (s : PeCounters) (e : PeEvent) : PeCounters :=
  match e with
  | .initiateHardReset =>
      if s.hardResetCount < CY_PD_MAX_HARD_RESET_COUNT then
        { s with hardResetCount := s.hardResetCount + 1 }
      else
        { peInit with mode := .errorRecovery }
  | .sendSrcCap acked =>
      if s.partnerPdCapable = false ∨ ¬ s.srcCapCount < CY_PD_MAX_SRC_CAP_COUNT then
        s
      else if acked then
        { s with srcCapCount := s.srcCapCount + 1, unackedSrcCapCount := 0 }
      else
        { s with srcCapCount := s.srcCapCount + 1,
                 unackedSrcCapCount := s.unackedSrcCapCount + 1,
                 partnerPdCapable :=
                   decide (s.unackedSrcCapCount + 1 < CY_PD_MAX_SRC_CAP_TRY) }

/-- Run the policy-engine counters from the initial state over a list of events. -/
def peRun (evs : List PeEvent) : PeCounters :=
  evs.foldl peStep peInit

/-- The counter invariant: both counters stay at or below their maxima, the
unacknowledged-SRC_CAP count never passes 6, and the partner is classified
non-PD exactly when that count has reached 6. -/
def peCountersInv (s : PeCounters) : Prop :=
  s.hardResetCount ≤ CY_PD_MAX_HARD_RESET_COUNT ∧
  s.srcCapCount ≤ CY_PD_MAX_SRC_CAP_COUNT ∧
  s.unackedSrcCapCount ≤ CY_PD_MAX_SRC_CAP_TRY ∧
  (s.partnerPdCapable = false ↔ s.unackedSrcCapCount = CY_PD_MAX_SRC_CAP_TRY)

lemma peCountersInv_init : peCountersInv peInit := by
  simp [peCountersInv, peInit, CY_PD_MAX_HARD_RESET_COUNT, CY_PD_MAX_SRC_CAP_COUNT,
    CY_PD_MAX_SRC_CAP_TRY]

lemma peCountersInv_step (s : PeCounters) (e : PeEvent) (h : peCountersInv s) :
    peCountersInv (peStep s e) := by
  obtain ⟨h1, h2, h3, h4⟩ := h
  cases e with
  | initiateHardReset =>
      simp only [peStep]
      by_cases hlt : s.hardResetCount < CY_PD_MAX_HARD_RESET_COUNT
      · rw [if_pos hlt]
        exact ⟨hlt, h2, h3, h4⟩
      · rw [if_neg hlt]
        refine ⟨?_, ?_, ?_, ?_⟩ <;> simp [peInit, CY_PD_MAX_SRC_CAP_TRY]
  | sendSrcCap acked =>
      simp only [peStep]
      by_cases hstop : s.partnerPdCapable = false ∨ ¬ s.srcCapCount < CY_PD_MAX_SRC_CAP_COUNT
      · rw [if_pos hstop]
        exact ⟨h1, h2, h3, h4⟩
      · rw [if_neg hstop]
        push_neg at hstop
        obtain ⟨hcap, hcnt⟩ := hstop
        cases acked with
        | true =>
            rw [if_pos rfl]
            refine ⟨h1, hcnt, Nat.zero_le _, ?_⟩
            constructor
            · intro hc
              exact absurd hc hcap
            · intro h0
              simp [CY_PD_MAX_SRC_CAP_TRY] at h0
        | false =>
            rw [if_neg (by decide)]
            have hu : s.unackedSrcCapCount < CY_PD_MAX_SRC_CAP_TRY := by
              rcases Nat.lt_or_ge s.unackedSrcCapCount CY_PD_MAX_SRC_CAP_TRY with hlt | hge
              · exact hlt
              · exact absurd (h4.mpr (Nat.le_antisymm h3 hge)) hcap
            refine ⟨h1, hcnt, hu, ?_⟩
            constructor
            · intro hdec
              have hnot : ¬ s.unackedSrcCapCount + 1 < CY_PD_MAX_SRC_CAP_TRY :=
                of_decide_eq_false hdec
              change s.unackedSrcCapCount + 1 = CY_PD_MAX_SRC_CAP_TRY
              unfold CY_PD_MAX_SRC_CAP_TRY at hu hnot ⊢
              omega
            · intro heq
              have heqq : s.unackedSrcCapCount + 1 = CY_PD_MAX_SRC_CAP_TRY := heq
              show decide (s.unackedSrcCapCount + 1 < CY_PD_MAX_SRC_CAP_TRY) = false
              rw [heqq]
              decide

/-- C4: in every state of the policy engine reachable from initialisation, the
hard-reset counter never exceeds `CY_PD_MAX_HARD_RESET_COUNT` = 3, the
source-capabilities counter never exceeds `CY_PD_MAX_SRC_CAP_COUNT` = 50, the
partner is classified non-PD-capable exactly when
`CY_PD_MAX_SRC_CAP_TRY` = 6 consecutive Source_Capabilities went
unacknowledged; moreover at the hard-reset maximum the next hard reset
escalates to Type-C ErrorRecovery, at the source-cap maximum further sends are
suppressed, and once the partner is classified non-PD the fallback
classification is retained by source-cap events. -/
theorem C4_pe_counter_invariants (evs : List PeEvent) :
    (peRun evs).hardResetCount ≤ CY_PD_MAX_HARD_RESET_COUNT ∧
    (peRun evs).srcCapCount ≤ CY_PD_MAX_SRC_CAP_COUNT ∧
    ((peRun evs).partnerPdCapable = false ↔
      (peRun evs).unackedSrcCapCount = CY_PD_MAX_SRC_CAP_TRY) ∧
    ((peRun evs).hardResetCount = CY_PD_MAX_HARD_RESET_COUNT →
      (peStep (peRun evs) .initiateHardReset).mode = .errorRecovery) ∧
    (∀ acked, (peRun evs).srcCapCount = CY_PD_MAX_SRC_CAP_COUNT →
      peStep (peRun evs) (.sendSrcCap acked) = peRun evs) ∧
    (∀ acked, (peRun evs).partnerPdCapable = false →
      peStep (peRun evs) (.sendSrcCap acked) = peRun evs) := by
  have hinv : peCountersInv (peRun evs) := by
    have : ∀ (l : List PeEvent) (s : PeCounters), peCountersInv s →
        peCountersInv (l.foldl peStep s) := by
      intro l
      induction l with
      | nil => intro s hs; exact hs
      | cons e t ih => intro s hs; exact ih _ (peCountersInv_step s e hs)
    exact this evs peInit peCountersInv_init
  obtain ⟨h1, h2, h3, h4⟩ := hinv
  refine ⟨h1, h2, h4, ?_, ?_, ?_⟩
  · intro hmax
    simp [peStep, hmax]
  · intro acked hmax
    simp [peStep, hmax]
  · intro acked hncap
    simp [peStep, hncap]

/-- An event trace that drives every counter to its bound: three hard resets,
then 44 acknowledged and 6 unacknowledged Source_Capabilities sends. -/
def peSaturatingTrace : List PeEvent :=
  List.replicate 3 .initiateHardReset ++
    List.replicate 44 (.sendSrcCap true) ++ List.replicate 6 (.sendSrcCap false)

set_option maxRecDepth 4000 in
/-- C4 witness: on the saturating trace the hard-reset counter sits at 3, the
source-cap counter at 50 and the partner is classified non-PD; the invariants
then yield the escalation to ErrorRecovery and the send suppression at a
concrete state. -/
theorem C4_pe_counter_witness :
    (peRun peSaturatingTrace).hardResetCount = 3 ∧
    (peRun peSaturatingTrace).srcCapCount = 50 ∧
    (peRun peSaturatingTrace).partnerPdCapable = false ∧
    (peStep (peRun peSaturatingTrace) .initiateHardReset).mode = .errorRecovery ∧
    peStep (peRun peSaturatingTrace) (.sendSrcCap true) = peRun peSaturatingTrace :=
  have h := C4_pe_counter_invariants peSaturatingTrace
  ⟨by decide, by decide, by decide,
    h.2.2.2.1 (by decide), h.2.2.2.2.1 true (by decide)⟩

end PdStack


namespace PdStack

/-! ## Chunked extended messages -/

/-- Modelled from the spec: "Chunked extended messages.  Encode in chunks of
<= 26 bytes" - the chunk data size is the legacy extended message length
`CY_PD_MAX_EXTD_MSG_LEGACY_LEN` of `cy_pdstack_common.h` (the PE status buffer
`eprSnkExtdChunkBuffer` is likewise 26 bytes).  The chunking `.c`
implementation is not under `src/`.  The payload is a byte list; the encoder
slices it front-to-back into maximal chunks. -/
def chunkPayload (payload : List Nat) : List (List Nat) :=
  if h : payload = [] then []
  else
    payload.take CY_PD_MAX_EXTD_MSG_LEGACY_LEN ::
      chunkPayload (payload.drop CY_PD_MAX_EXTD_MSG_LEGACY_LEN)
termination_by payload.length
decreasing_by
  simp only [List.length_drop]
  have hpos : 0 < payload.length := List.length_pos.mpr h
  simp [CY_PD_MAX_EXTD_MSG_LEGACY_LEN]
  omega

/-- Modelled from the spec: "Under PD 2.0, extended messages are capped at
26 bytes (legacy form)" - the maximum extended-message payload the stack
carries for a given bus revision, using the constants of
`cy_pdstack_common.h`. -/
def maxExtdPayloadLen (rev : cy_en_pd_pd_rev) : Nat :=
  if rev = .CY_PD_REV2 then CY_PD_MAX_EXTD_MSG_LEGACY_LEN else CY_PD_MAX_EXTD_PKT_SIZE

lemma chunkPayload_chunk_len (payload : List Nat) :
    ∀ c ∈ chunkPayload payload, c.length ≤ CY_PD_MAX_EXTD_MSG_LEGACY_LEN := by
  induction payload using chunkPayload.induct with
  | case1 =>
      intro c hc
      rw [chunkPayload] at hc
      exact absurd hc (by simp)
  | case2 payload hnil ih =>
      intro c hc
      rw [chunkPayload, dif_neg hnil, List.mem_cons] at hc
      rcases hc with hc | hc
      · subst hc
        simp
      · exact ih c hc

lemma chunkPayload_flatten (payload : List Nat) :
    (chunkPayload payload).flatten = payload := by
  induction payload using chunkPayload.induct with
  | case1 =>
      rw [chunkPayload]
      rfl
  | case2 payload hnil ih =>
      rw [chunkPayload, dif_neg hnil]
      simp [ih]

lemma chunkPayload_count (payload : List Nat) :
    (chunkPayload payload).length * CY_PD_MAX_EXTD_MSG_LEGACY_LEN <
      payload.length + CY_PD_MAX_EXTD_MSG_LEGACY_LEN := by
  induction payload using chunkPayload.induct with
  | case1 =>
      rw [chunkPayload]
      simp [CY_PD_MAX_EXTD_MSG_LEGACY_LEN]
  | case2 payload hnil ih =>
      rw [chunkPayload, dif_neg hnil]
      simp only [List.length_cons, List.length_drop] at ih ⊢
      have hpos : 0 < payload.length := List.length_pos.mpr hnil
      unfold CY_PD_MAX_EXTD_MSG_LEGACY_LEN at ih ⊢
      omega

/-- C5: for every extended-message payload of at most
`CY_PD_MAX_EXTD_PKT_SIZE` = 260 bytes, chunked encoding produces chunks each
carrying at most `CY_PD_MAX_EXTD_MSG_LEGACY_LEN` = 26 bytes of data, the
receiver's in-order concatenation of the chunks reproduces the payload
exactly (and never needs more chunks than fit the payload), and under PD 2.0
the extended message is capped at the 26-byte legacy form while PD 3.x allows
the full 260 bytes. -/
theorem C5_chunking_roundtrip (payload : List Nat)
    (hlen : payload.length ≤ CY_PD_MAX_EXTD_PKT_SIZE) :
    (∀ c ∈ chunkPayload payload, c.length ≤ CY_PD_MAX_EXTD_MSG_LEGACY_LEN) ∧
    (chunkPayload payload).flatten = payload ∧
    maxExtdPayloadLen .CY_PD_REV2 = CY_PD_MAX_EXTD_MSG_LEGACY_LEN ∧
    maxExtdPayloadLen .CY_PD_REV3 = CY_PD_MAX_EXTD_PKT_SIZE ∧
    (chunkPayload payload).length ≤ 10 :=
  ⟨chunkPayload_chunk_len payload, chunkPayload_flatten payload, rfl, rfl, by
    have hc := chunkPayload_count payload
    unfold CY_PD_MAX_EXTD_MSG_LEGACY_LEN at hc
    unfold CY_PD_MAX_EXTD_PKT_SIZE at hlen
    omega⟩

/-- C5 witness: a 60-byte payload (three chunks of 26 + 26 + 8 bytes)
round-trips through chunked encoding. -/
theorem C5_chunking_witness :
    (∀ c ∈ chunkPayload (List.replicate 60 0xAB),
      c.length ≤ CY_PD_MAX_EXTD_MSG_LEGACY_LEN) ∧
    (chunkPayload (List.replicate 60 0xAB)).flatten = List.replicate 60 0xAB ∧
    maxExtdPayloadLen .CY_PD_REV2 = CY_PD_MAX_EXTD_MSG_LEGACY_LEN ∧
    maxExtdPayloadLen .CY_PD_REV3 = CY_PD_MAX_EXTD_PKT_SIZE ∧
    (chunkPayload (List.replicate 60 0xAB)).length ≤ 10 :=
  C5_chunking_roundtrip (List.replicate 60 0xAB) (by decide)

end PdStack

namespace PdStack

/-! ## DPM command handling -/

/-- `cy_en_pdstack_status_t`: interface status codes returned by the PDStack
middleware APIs. -/
inductive cy_en_pdstack_status
  | CY_PDSTACK_STAT_NO_RESPONSE
  | CY_PDSTACK_STAT_SUCCESS
  | CY_PDSTACK_STAT_FLASH_DATA_AVAILABLE
  | CY_PDSTACK_STAT_BAD_PARAM
  | CY_PDSTACK_STAT_INVALID_COMMAND
  | CY_PDSTACK_STAT_FLASH_UPDATE_FAILED
  | CY_PDSTACK_STAT_INVALID_FW
  | CY_PDSTACK_STAT_INVALID_ARGUMENT
  | CY_PDSTACK_STAT_NOT_SUPPORTED
  | CY_PDSTACK_STAT_INVALID_SIGNATURE
  | CY_PDSTACK_STAT_TRANS_FAILURE
  | CY_PDSTACK_STAT_CMD_FAILURE
  | CY_PDSTACK_STAT_FAILURE
  | CY_PDSTACK_STAT_READ_DATA
  | CY_PDSTACK_STAT_NOT_READY
  | CY_PDSTACK_STAT_BUSY
  | CY_PDSTACK_STAT_TIMEOUT
  | CY_PDSTACK_STAT_INVALID_PORT
  | CY_PDSTACK_STAT_INVALID_ID
  | CY_PDSTACK_STAT_INVALID_GUID
  | CY_PDSTACK_STAT_INVALID_VER
  | CY_PDSTACK_STAT_OUT_OF_SEQ_CMD
  | CY_PDSTACK_STAT_INVALID_FWCT
  | CY_PDSTACK_STAT_HASH_CMP_FAILED
deriving DecidableEq

/-- The integer value each `cy_en_pdstack_status_t` enumerator has in the C
enum (explicit assignments `-2`, `0`, `3`, `5` and `0x3E` included). -/
def cy_en_pdstack_status.toInt : cy_en_pdstack_status → Int
  | .CY_PDSTACK_STAT_NO_RESPONSE => -2
  | .CY_PDSTACK_STAT_SUCCESS => 0
  | .CY_PDSTACK_STAT_FLASH_DATA_AVAILABLE => 1
  | .CY_PDSTACK_STAT_BAD_PARAM => 2
  | .CY_PDSTACK_STAT_INVALID_COMMAND => 3
  | .CY_PDSTACK_STAT_FLASH_UPDATE_FAILED => 5
  | .CY_PDSTACK_STAT_INVALID_FW => 6
  | .CY_PDSTACK_STAT_INVALID_ARGUMENT => 7
  | .CY_PDSTACK_STAT_NOT_SUPPORTED => 8
  | .CY_PDSTACK_STAT_INVALID_SIGNATURE => 9
  | .CY_PDSTACK_STAT_TRANS_FAILURE => 10
  | .CY_PDSTACK_STAT_CMD_FAILURE => 11
  | .CY_PDSTACK_STAT_FAILURE => 12
  | .CY_PDSTACK_STAT_READ_DATA => 13
  | .CY_PDSTACK_STAT_NOT_READY => 14
  | .CY_PDSTACK_STAT_BUSY => 15
  | .CY_PDSTACK_STAT_TIMEOUT => 16
  | .CY_PDSTACK_STAT_INVALID_PORT => 17
  | .CY_PDSTACK_STAT_INVALID_ID => 0x3E
  | .CY_PDSTACK_STAT_INVALID_GUID => 0x3F
  | .CY_PDSTACK_STAT_INVALID_VER => 0x40
  | .CY_PDSTACK_STAT_OUT_OF_SEQ_CMD => 0x41
  | .CY_PDSTACK_STAT_INVALID_FWCT => 0x42
  | .CY_PDSTACK_STAT_HASH_CMP_FAILED => 0x43

/-- `cy_stc_pdstack_dpm_pd_cmd_buf_t`: struct to hold a PD command buffer.
`cmdSop` and `extdType` are enum codes, `extdHdr` is the 16-bit extended
header value, `datPtr` is modelled as the extended-message byte list it
points to, `noOfCmdDo` and `timeout` are `uint8_t`, and `cmdDo` is the
data-object array (up to `CY_PD_MAX_NO_OF_DO` words). -/
structure cy_stc_pdstack_dpm_pd_cmd_buf where
  cmdSop : Nat
  extdType : Nat
  extdHdr : Nat
  noOfCmdDo : Nat
  datPtr : List Nat
  timeout : Nat
  cmdDo : List Nat
deriving DecidableEq

/-- Construct a `cy_stc_pdstack_dpm_pd_cmd_buf_t` from unconstrained field
values, applying the C storage truncation: `noOfCmdDo` and `timeout` are
`uint8_t` fields and keep only the value modulo `2 ^ 8`. -/
def mkDpmPdCmdBuf (cmdSop extdType extdHdr noOfCmdDo : Nat) (datPtr : List Nat)
    (timeoutMs : Nat) (cmdDo : List Nat) : cy_stc_pdstack_dpm_pd_cmd_buf :=
  { cmdSop := cmdSop
    extdType := extdType
    extdHdr := extdHdr % 2 ^ 16
    noOfCmdDo := noOfCmdDo % 2 ^ 8
    datPtr := datPtr
    timeout := timeoutMs % 2 ^ 8
    cmdDo := cmdDo }

/-- From the doc comment of the `timeout` field in `cy_pdstack_common.h`:
"Timeout value in ms for a response.  If set to zero, the PD stack will not
wait for a VDM response and jumps to the ready state after this buffer has
been sent." -/
def dpmCmdWaitsForResponse (buf : cy_stc_pdstack_dpm_pd_cmd_buf) : Bool :=
  buf.timeout ≠ 0

/-- The DPM-status slice involved in PD command registration: the
`dpmPdCmdActive` flag, the registered command code `dpmPdCmd` and the local
command buffer `dpmCmdBuf` of `cy_stc_pdstack_dpm_status_t`. -/
structure DpmCmdState where
  dpmPdCmdActive : Bool
  dpmPdCmd : Nat
  dpmCmdBuf : cy_stc_pdstack_dpm_pd_cmd_buf
deriving DecidableEq

/-- Modelled from the spec: "At most one command is active per port; a new
command is rejected with Busy."  Submitting a DPM PD command checks the
port's `dpmPdCmdActive` flag: when set, the call fails with
`CY_PDSTACK_STAT_BUSY` and changes nothing; otherwise the command and its
buffer are registered and the flag is set.  The `Cy_PdStack_Dpm_SendPdCommand`
implementation is not under `src/`; the flag, the command field, the buffer
and the Busy status code are from `cy_pdstack_common.h`. -/
def dpmSendPdCommand (st : DpmCmdState) (cmd : Nat)
    (buf : cy_stc_pdstack_dpm_pd_cmd_buf) : cy_en_pdstack_status × DpmCmdState :=
  if st.dpmPdCmdActive then
    (.CY_PDSTACK_STAT_BUSY, st)
  else
    (.CY_PDSTACK_STAT_SUCCESS,
      { dpmPdCmdActive := true, dpmPdCmd := cmd, dpmCmdBuf := buf })

/-- C8: submitting a new DPM command on a port whose command slot is already
active fails with the Busy status and leaves the active command, its buffer
and the whole port command state unchanged (while a free port accepts the
command). -/
theorem C8_dpm_command_busy (st : DpmCmdState) (cmd : Nat)
    (buf : cy_stc_pdstack_dpm_pd_cmd_buf) (hactive : st.dpmPdCmdActive = true) :
    dpmSendPdCommand st cmd buf = (.CY_PDSTACK_STAT_BUSY, st) ∧
    (dpmSendPdCommand st cmd buf).2.dpmPdCmd = st.dpmPdCmd ∧
    (dpmSendPdCommand st cmd buf).2.dpmCmdBuf = st.dpmCmdBuf ∧
    (dpmSendPdCommand st cmd buf).1.toInt = 15 := by
  refine ⟨?_, ?_, ?_, ?_⟩ <;> simp [dpmSendPdCommand, hactive, cy_en_pdstack_status.toInt]

/-- C8 witness: a port with an active command (code 2) rejects a new command
(code 7) with Busy and keeps its state. -/
theorem C8_dpm_command_busy_witness :
    dpmSendPdCommand ⟨true, 2, mkDpmPdCmdBuf 0 0 0 1 [] 30 [42]⟩ 7
        (mkDpmPdCmdBuf 0 0 0 2 [] 10 [7]) =
      (.CY_PDSTACK_STAT_BUSY, ⟨true, 2, mkDpmPdCmdBuf 0 0 0 1 [] 30 [42]⟩) ∧
    (dpmSendPdCommand ⟨true, 2, mkDpmPdCmdBuf 0 0 0 1 [] 30 [42]⟩ 7
        (mkDpmPdCmdBuf 0 0 0 2 [] 10 [7])).2.dpmPdCmd = 2 ∧
    (dpmSendPdCommand ⟨true, 2, mkDpmPdCmdBuf 0 0 0 1 [] 30 [42]⟩ 7
        (mkDpmPdCmdBuf 0 0 0 2 [] 10 [7])).2.dpmCmdBuf = mkDpmPdCmdBuf 0 0 0 1 [] 30 [42] ∧
    (dpmSendPdCommand ⟨true, 2, mkDpmPdCmdBuf 0 0 0 1 [] 30 [42]⟩ 7
        (mkDpmPdCmdBuf 0 0 0 2 [] 10 [7])).1.toInt = 15 :=
  C8_dpm_command_busy ⟨true, 2, mkDpmPdCmdBuf 0 0 0 1 [] 30 [42]⟩ 7
    (mkDpmPdCmdBuf 0 0 0 2 [] 10 [7]) rfl

/-- C10: the response timeout of a DPM PD command is stored in a `uint8_t`
field counting milliseconds: whatever value is supplied, the stored timeout
is its value modulo 256, so only 0 through 255 ms are expressible, and a
stored 0 means the stack does not wait for a response. -/
theorem C10_dpm_cmd_timeout_uint8 (cmdSop extdType extdHdr noOfCmdDo : Nat)
    (datPtr : List Nat) (timeoutMs : Nat) (cmdDo : List Nat) :
    (mkDpmPdCmdBuf cmdSop extdType extdHdr noOfCmdDo datPtr timeoutMs cmdDo).timeout =
      timeoutMs % 256 ∧
    (mkDpmPdCmdBuf cmdSop extdType extdHdr noOfCmdDo datPtr timeoutMs cmdDo).timeout < 256 ∧
    (timeoutMs ≤ 255 →
      (mkDpmPdCmdBuf cmdSop extdType extdHdr noOfCmdDo datPtr timeoutMs cmdDo).timeout =
        timeoutMs) ∧
    dpmCmdWaitsForResponse
      (mkDpmPdCmdBuf cmdSop extdType extdHdr noOfCmdDo datPtr 0 cmdDo) = false := by
  refine ⟨rfl, ?_, ?_, ?_⟩
  · exact Nat.mod_lt _ (by decide)
  · intro hle
    exact Nat.mod_eq_of_lt (by omega)
  · rfl

/-- C10 witness: a requested timeout of 300 ms is stored as 44 ms (300 mod
256); a requested 0 produces a command the stack does not wait on. -/
theorem C10_dpm_cmd_timeout_witness :
    (mkDpmPdCmdBuf 0 0 0 1 [] 300 [5]).timeout = 300 % 256 ∧
    (mkDpmPdCmdBuf 0 0 0 1 [] 300 [5]).timeout < 256 ∧
    (300 ≤ 255 → (mkDpmPdCmdBuf 0 0 0 1 [] 300 [5]).timeout = 300) ∧
    dpmCmdWaitsForResponse (mkDpmPdCmdBuf 0 0 0 1 [] 0 [5]) = false :=
  C10_dpm_cmd_timeout_uint8 0 0 0 1 [] 300 [5]

end PdStack

namespace PdStack

/-! ## Soft-timer identifiers (`cy_pdstack_timer_id.h`) -/

/-- Modelled from the spec: start of the port-0 PD timer bank.  The constant
`CY_PDUTILS_TIMER_PD_PORT0_START_ID` comes from the pdutils library outside
this repository; the enum doc comment fixes its value, "0x100: Starts the
index for USB PD stack timers". -/
def CY_PDUTILS_TIMER_PD_PORT0_START_ID : Nat := 0x100

/-- Modelled from the spec: start of the port-1 PD timer bank
(`CY_PDUTILS_TIMER_PD_PORT1_START_ID`, "0x200: Starts the index for USB PD
stack timers"). -/
def CY_PDUTILS_TIMER_PD_PORT1_START_ID : Nat := 0x200

/-- `CY_PDSTACK_PD_TIMERS_START_ID` (0x100). -/
def CY_PDSTACK_PD_TIMERS_START_ID : Nat := CY_PDUTILS_TIMER_PD_PORT0_START_ID

/-- `CY_PDSTACK_PD_CABLE_TIMER` (0x101). -/
def CY_PDSTACK_PD_CABLE_TIMER : Nat := 0x101

/-- `CY_PDSTACK_PD_NO_RESPONSE_TIMER` (0x102). -/
def CY_PDSTACK_PD_NO_RESPONSE_TIMER : Nat := 0x102

/-- `CY_PDSTACK_PD_CBL_DSC_ID_TIMER` (0x103). -/
def CY_PDSTACK_PD_CBL_DSC_ID_TIMER : Nat := 0x103

/-- `CY_PDSTACK_PD_CBL_DELAY_TIMER` (0x104). -/
def CY_PDSTACK_PD_CBL_DELAY_TIMER : Nat := 0x104

/-- `CY_PDSTACK_PD_PHY_BUSY_TIMER` (0x105). -/
def CY_PDSTACK_PD_PHY_BUSY_TIMER : Nat := 0x105

/-- `CY_PDSTACK_PD_GOOD_CRC_TX_TIMER` (0x106). -/
def CY_PDSTACK_PD_GOOD_CRC_TX_TIMER : Nat := 0x106

/-- `CY_PDSTACK_PD_HARD_RESET_TX_TIMER` (0x107). -/
def CY_PDSTACK_PD_HARD_RESET_TX_TIMER : Nat := 0x107

/-- `CY_PDSTACK_PD_VCONN_SWAP_INITIATOR_TIMER` (0x108). -/
def CY_PDSTACK_PD_VCONN_SWAP_INITIATOR_TIMER : Nat := 0x108

/-- `CY_PDSTACK_PD_GENERIC_TIMER` (0x109). -/
def CY_PDSTACK_PD_GENERIC_TIMER : Nat := 0x109

/-- `CY_PDSTACK_PD_PPS_TIMER` (0x10A). -/
def CY_PDSTACK_PD_PPS_TIMER : Nat := 0x10A

/-- `CY_PDSTACK_PD_SINK_TX_TIMER` (0x10B). -/
def CY_PDSTACK_PD_SINK_TX_TIMER : Nat := 0x10B

/-- `CY_PDSTACK_PD_DATA_RESET_COMP_TIMER` (0x10C). -/
def CY_PDSTACK_PD_DATA_RESET_COMP_TIMER : Nat := 0x10C

/-- `CY_PDSTACK_PD_SNK_EPR_MODE_TIMER` (0x10D). -/
def CY_PDSTACK_PD_SNK_EPR_MODE_TIMER : Nat := 0x10D

/-- `CY_PDSTACK_PD_SRC_EPR_MODE_TIMER` (0x10E). -/
def CY_PDSTACK_PD_SRC_EPR_MODE_TIMER : Nat := 0x10E

/-- `CY_PDSTACK_PD_EPR_KEEPALIVE_TIMER` (0x10F). -/
def CY_PDSTACK_PD_EPR_KEEPALIVE_TIMER : Nat := 0x10F

/-- `CY_PDSTACK_PD_TIMER_RESERVED_16` (0x110, reserved for future use). -/
def CY_PDSTACK_PD_TIMER_RESERVED_16 : Nat := 0x110

/-- `CY_PDSTACK_PD_TIMERS_END_ID` (0x110): end index (inclusive) for USB PD
stack timers. -/
def CY_PDSTACK_PD_TIMERS_END_ID : Nat := 0x110

/-- `CY_PDSTACK_TYPEC_TIMERS_START_ID` (0x111). -/
def CY_PDSTACK_TYPEC_TIMERS_START_ID : Nat := 0x111

/-- `CY_PDSTACK_TYPEC_GENERIC_TIMER2` (0x111). -/
def CY_PDSTACK_TYPEC_GENERIC_TIMER2 : Nat := 0x111

/-- `CY_PDSTACK_TYPEC_GENERIC_TIMER1` (0x112). -/
def CY_PDSTACK_TYPEC_GENERIC_TIMER1 : Nat := 0x112

/-- `CY_PDSTACK_TYPEC_CC1_DEBOUNCE_TIMER` (0x113). -/
def CY_PDSTACK_TYPEC_CC1_DEBOUNCE_TIMER : Nat := 0x113

/-- `CY_PDSTACK_TYPEC_CC2_DEBOUNCE_TIMER` (0x114). -/
def CY_PDSTACK_TYPEC_CC2_DEBOUNCE_TIMER : Nat := 0x114

/-- `CY_PDSTACK_TYPEC_RD_DEBOUNCE_TIMER` (0x115). -/
def CY_PDSTACK_TYPEC_RD_DEBOUNCE_TIMER : Nat := 0x115

/-- `CY_PDSTACK_TYPEC_VBUS_DISCHARGE_TIMER` (0x116). -/
def CY_PDSTACK_TYPEC_VBUS_DISCHARGE_TIMER : Nat := 0x116

/-- `CY_PDSTACK_TYPEC_ACTIVITY_TIMER` (0x117). -/
def CY_PDSTACK_TYPEC_ACTIVITY_TIMER : Nat := 0x117

/-- `CY_PDSTACK_TYPEC_RP_CHANGE_TIMER` (0x118). -/
def CY_PDSTACK_TYPEC_RP_CHANGE_TIMER : Nat := 0x118

/-- `CY_PDSTACK_TYPEC_TIMER_RESERVED_25` (0x119). -/
def CY_PDSTACK_TYPEC_TIMER_RESERVED_25 : Nat := 0x119

/-- `CY_PDSTACK_TYPEC_TIMERS_END_ID` (0x11A): end index (inclusive) for
Type-C timers. -/
def CY_PDSTACK_TYPEC_TIMERS_END_ID : Nat := 0x11A

/-- `CY_PDSTACK_PD_OCP_DEBOUNCE_TIMER` (0x11B). -/
def CY_PDSTACK_PD_OCP_DEBOUNCE_TIMER : Nat := 0x11B

/-- `CY_PDSTACK_HPD_RX_ACTIVITY_TIMER_ID` (0x11C). -/
def CY_PDSTACK_HPD_RX_ACTIVITY_TIMER_ID : Nat := 0x11C

/-- `CY_PDSTACK_PD_VCONN_OCP_DEBOUNCE_TIMER` (0x11D). -/
def CY_PDSTACK_PD_VCONN_OCP_DEBOUNCE_TIMER : Nat := 0x11D

/-- `CY_PDSTACK_PD_TIMER_RESERVED_30` (0x11E). -/
def CY_PDSTACK_PD_TIMER_RESERVED_30 : Nat := 0x11E

/-- `CY_PDSTACK_PD_TIMER_RESERVED_31` (0x11F). -/
def CY_PDSTACK_PD_TIMER_RESERVED_31 : Nat := 0x11F

/-- `CY_PDSTACK_PD_ALTMODE_TIMERS_START_ID` (0x180): starts the index for
USB PD alternate mode stack timers. -/
def CY_PDSTACK_PD_ALTMODE_TIMERS_START_ID : Nat := 0x180

/-- `CY_PDSTACK_PD1_TIMERS_START_ID` (0x200). -/
def CY_PDSTACK_PD1_TIMERS_START_ID : Nat := CY_PDUTILS_TIMER_PD_PORT1_START_ID

/-- `CY_PDSTACK_PD1_CABLE_TIMER` (0x201). -/
def CY_PDSTACK_PD1_CABLE_TIMER : Nat := 0x201

/-- `CY_PDSTACK_PD1_NO_RESPONSE_TIMER` (0x202). -/
def CY_PDSTACK_PD1_NO_RESPONSE_TIMER : Nat := 0x202

/-- `CY_PDSTACK_PD1_CBL_DSC_ID_TIMER` (0x203). -/
def CY_PDSTACK_PD1_CBL_DSC_ID_TIMER : Nat := 0x203

/-- `CY_PDSTACK_PD1_CBL_DELAY_TIMER` (0x204). -/
def CY_PDSTACK_PD1_CBL_DELAY_TIMER : Nat := 0x204

/-- `CY_PDSTACK_PD1_PHY_BUSY_TIMER` (0x205). -/
def CY_PDSTACK_PD1_PHY_BUSY_TIMER : Nat := 0x205

/-- `CY_PDSTACK_PD1_GOOD_CRC_TX_TIMER` (0x206). -/
def CY_PDSTACK_PD1_GOOD_CRC_TX_TIMER : Nat := 0x206

/-- `CY_PDSTACK_PD1_HARD_RESET_TX_TIMER` (0x207). -/
def CY_PDSTACK_PD1_HARD_RESET_TX_TIMER : Nat := 0x207

/-- `CY_PDSTACK_PD1_VCONN_SWAP_INITIATOR_TIMER` (0x208). -/
def CY_PDSTACK_PD1_VCONN_SWAP_INITIATOR_TIMER : Nat := 0x208

/-- `CY_PDSTACK_PD1_GENERIC_TIMER` (0x209). -/
def CY_PDSTACK_PD1_GENERIC_TIMER : Nat := 0x209

/-- `CY_PDSTACK_PD1_PPS_TIMER` (0x20A). -/
def CY_PDSTACK_PD1_PPS_TIMER : Nat := 0x20A

/-- `CY_PDSTACK_PD1_SINK_TX_TIMER` (0x20B). -/
def CY_PDSTACK_PD1_SINK_TX_TIMER : Nat := 0x20B

/-- `CY_PDSTACK_PD1_DATA_RESET_COMP_TIMER` (0x20C). -/
def CY_PDSTACK_PD1_DATA_RESET_COMP_TIMER : Nat := 0x20C

/-- `CY_PDSTACK_PD1_SNK_EPR_MODE_TIMER` (0x20D). -/
def CY_PDSTACK_PD1_SNK_EPR_MODE_TIMER : Nat := 0x20D

/-- `CY_PDSTACK_PD1_SRC_EPR_MODE_TIMER` (0x20E). -/
def CY_PDSTACK_PD1_SRC_EPR_MODE_TIMER : Nat := 0x20E

/-- `CY_PDSTACK_PD1_EPR_KEEPALIVE_TIMER` (0x20F). -/
def CY_PDSTACK_PD1_EPR_KEEPALIVE_TIMER : Nat := 0x20F

/-- `CY_PDSTACK_PD1_TIMER_RESERVED_16` (0x210). -/
def CY_PDSTACK_PD1_TIMER_RESERVED_16 : Nat := 0x210

/-- `CY_PDSTACK_PD1_TIMERS_END_ID` (0x210): end index (inclusive) for USB PD
stack timers of port 1. -/
def CY_PDSTACK_PD1_TIMERS_END_ID : Nat := 0x210

/-- `CY_PDSTACK_TYPEC1_TIMERS_START_ID` (0x211). -/
def CY_PDSTACK_TYPEC1_TIMERS_START_ID : Nat := 0x211

/-- `CY_PDSTACK_TYPEC1_GENERIC_TIMER2` (0x211). -/
def CY_PDSTACK_TYPEC1_GENERIC_TIMER2 : Nat := 0x211

/-- `CY_PDSTACK_TYPEC1_GENERIC_TIMER1` (0x212). -/
def CY_PDSTACK_TYPEC1_GENERIC_TIMER1 : Nat := 0x212

/-- `CY_PDSTACK_TYPEC1_CC1_DEBOUNCE_TIMER` (0x213). -/
def CY_PDSTACK_TYPEC1_CC1_DEBOUNCE_TIMER : Nat := 0x213

/-- `CY_PDSTACK_TYPEC1_CC2_DEBOUNCE_TIMER` (0x214). -/
def CY_PDSTACK_TYPEC1_CC2_DEBOUNCE_TIMER : Nat := 0x214

/-- `CY_PDSTACK_TYPEC1_RD_DEBOUNCE_TIMER` (0x215). -/
def CY_PDSTACK_TYPEC1_RD_DEBOUNCE_TIMER : Nat := 0x215

/-- `CY_PDSTACK_TYPEC1_VBUS_DISCHARGE_TIMER` (0x216). -/
def CY_PDSTACK_TYPEC1_VBUS_DISCHARGE_TIMER : Nat := 0x216

/-- `CY_PDSTACK_TYPEC1_ACTIVITY_TIMER` (0x217). -/
def CY_PDSTACK_TYPEC1_ACTIVITY_TIMER : Nat := 0x217

/-- `CY_PDSTACK_TYPEC1_RP_CHANGE_TIMER` (0x218). -/
def CY_PDSTACK_TYPEC1_RP_CHANGE_TIMER : Nat := 0x218

/-- `CY_PDSTACK_TYPEC1_TIMER_RESERVED_25` (0x219). -/
def CY_PDSTACK_TYPEC1_TIMER_RESERVED_25 : Nat := 0x219

/-- `CY_PDSTACK_TYPEC1_TIMERS_END_ID` (0x21A). -/
def CY_PDSTACK_TYPEC1_TIMERS_END_ID : Nat := 0x21A

/-- `CY_PDSTACK_PD1_OCP_DEBOUNCE_TIMER` (0x21B). -/
def CY_PDSTACK_PD1_OCP_DEBOUNCE_TIMER : Nat := 0x21B

/-- `CY_PDSTACK_HPD1_RX_ACTIVITY_TIMER_ID` (0x21C). -/
def CY_PDSTACK_HPD1_RX_ACTIVITY_TIMER_ID : Nat := 0x21C

/-- `CY_PDSTACK_PD1_VCONN_OCP_DEBOUNCE_TIMER` (0x21D). -/
def CY_PDSTACK_PD1_VCONN_OCP_DEBOUNCE_TIMER : Nat := 0x21D

/-- All values of the `cy_en_pdstack_timer_id_t` enum, in declaration order
(aliased enumerators such as the START/END markers share their value with the
member they alias). -/
def timerIdValues : List Nat :=
  [CY_PDSTACK_PD_TIMERS_START_ID, CY_PDSTACK_PD_CABLE_TIMER,
   CY_PDSTACK_PD_NO_RESPONSE_TIMER, CY_PDSTACK_PD_CBL_DSC_ID_TIMER,
   CY_PDSTACK_PD_CBL_DELAY_TIMER, CY_PDSTACK_PD_PHY_BUSY_TIMER,
   CY_PDSTACK_PD_GOOD_CRC_TX_TIMER, CY_PDSTACK_PD_HARD_RESET_TX_TIMER,
   CY_PDSTACK_PD_VCONN_SWAP_INITIATOR_TIMER, CY_PDSTACK_PD_GENERIC_TIMER,
   CY_PDSTACK_PD_PPS_TIMER, CY_PDSTACK_PD_SINK_TX_TIMER,
   CY_PDSTACK_PD_DATA_RESET_COMP_TIMER, CY_PDSTACK_PD_SNK_EPR_MODE_TIMER,
   CY_PDSTACK_PD_SRC_EPR_MODE_TIMER, CY_PDSTACK_PD_EPR_KEEPALIVE_TIMER,
   CY_PDSTACK_PD_TIMER_RESERVED_16, CY_PDSTACK_PD_TIMERS_END_ID,
   CY_PDSTACK_TYPEC_TIMERS_START_ID, CY_PDSTACK_TYPEC_GENERIC_TIMER2,
   CY_PDSTACK_TYPEC_GENERIC_TIMER1, CY_PDSTACK_TYPEC_CC1_DEBOUNCE_TIMER,
   CY_PDSTACK_TYPEC_CC2_DEBOUNCE_TIMER, CY_PDSTACK_TYPEC_RD_DEBOUNCE_TIMER,
   CY_PDSTACK_TYPEC_VBUS_DISCHARGE_TIMER, CY_PDSTACK_TYPEC_ACTIVITY_TIMER,
   CY_PDSTACK_TYPEC_RP_CHANGE_TIMER, CY_PDSTACK_TYPEC_TIMER_RESERVED_25,
   CY_PDSTACK_TYPEC_TIMERS_END_ID, CY_PDSTACK_PD_OCP_DEBOUNCE_TIMER,
   CY_PDSTACK_HPD_RX_ACTIVITY_TIMER_ID, CY_PDSTACK_PD_VCONN_OCP_DEBOUNCE_TIMER,
   CY_PDSTACK_PD_TIMER_RESERVED_30, CY_PDSTACK_PD_TIMER_RESERVED_31,
   CY_PDSTACK_PD_ALTMODE_TIMERS_START_ID,
   CY_PDSTACK_PD1_TIMERS_START_ID, CY_PDSTACK_PD1_CABLE_TIMER,
   CY_PDSTACK_PD1_NO_RESPONSE_TIMER, CY_PDSTACK_PD1_CBL_DSC_ID_TIMER,
   CY_PDSTACK_PD1_CBL_DELAY_TIMER, CY_PDSTACK_PD1_PHY_BUSY_TIMER,
   CY_PDSTACK_PD1_GOOD_CRC_TX_TIMER, CY_PDSTACK_PD1_HARD_RESET_TX_TIMER,
   CY_PDSTACK_PD1_VCONN_SWAP_INITIATOR_TIMER, CY_PDSTACK_PD1_GENERIC_TIMER,
   CY_PDSTACK_PD1_PPS_TIMER, CY_PDSTACK_PD1_SINK_TX_TIMER,
   CY_PDSTACK_PD1_DATA_RESET_COMP_TIMER, CY_PDSTACK_PD1_SNK_EPR_MODE_TIMER,
   CY_PDSTACK_PD1_SRC_EPR_MODE_TIMER, CY_PDSTACK_PD1_EPR_KEEPALIVE_TIMER,
   CY_PDSTACK_PD1_TIMER_RESERVED_16, CY_PDSTACK_PD1_TIMERS_END_ID,
   CY_PDSTACK_TYPEC1_TIMERS_START_ID, CY_PDSTACK_TYPEC1_GENERIC_TIMER2,
   CY_PDSTACK_TYPEC1_GENERIC_TIMER1, CY_PDSTACK_TYPEC1_CC1_DEBOUNCE_TIMER,
   CY_PDSTACK_TYPEC1_CC2_DEBOUNCE_TIMER, CY_PDSTACK_TYPEC1_RD_DEBOUNCE_TIMER,
   CY_PDSTACK_TYPEC1_VBUS_DISCHARGE_TIMER, CY_PDSTACK_TYPEC1_ACTIVITY_TIMER,
   CY_PDSTACK_TYPEC1_RP_CHANGE_TIMER, CY_PDSTACK_TYPEC1_TIMER_RESERVED_25,
   CY_PDSTACK_TYPEC1_TIMERS_END_ID, CY_PDSTACK_PD1_OCP_DEBOUNCE_TIMER,
   CY_PDSTACK_HPD1_RX_ACTIVITY_TIMER_ID, CY_PDSTACK_PD1_VCONN_OCP_DEBOUNCE_TIMER]

/-- The port-0 PD-stack timer IDs: the enum values lying between
`CY_PDSTACK_PD_TIMERS_START_ID` and the inclusive end marker
`CY_PDSTACK_PD_TIMERS_END_ID`. -/
def pd0PdTimerIds : List Nat :=
  timerIdValues.filter
    (fun v => decide (CY_PDSTACK_PD_TIMERS_START_ID ≤ v ∧ v ≤ CY_PDSTACK_PD_TIMERS_END_ID))

/-- The port-1 PD-stack timer IDs (between `CY_PDSTACK_PD1_TIMERS_START_ID`
and `CY_PDSTACK_PD1_TIMERS_END_ID`). -/
def pd1PdTimerIds : List Nat :=
  timerIdValues.filter
    (fun v => decide (CY_PDSTACK_PD1_TIMERS_START_ID ≤ v ∧ v ≤ CY_PDSTACK_PD1_TIMERS_END_ID))

/-- The port-0 Type-C timer IDs, including the OCP/HPD/VConn-OCP and reserved
members declared after the Type-C end marker (0x111 - 0x11F). -/
def typec0TimerIds : List Nat :=
  timerIdValues.filter
    (fun v => decide (CY_PDSTACK_TYPEC_TIMERS_START_ID ≤ v ∧
      v ≤ CY_PDSTACK_PD_TIMER_RESERVED_31))

/-- The port-1 Type-C timer IDs, including the trailing OCP/HPD/VConn-OCP
members (0x211 - 0x21D). -/
def typec1TimerIds : List Nat :=
  timerIdValues.filter
    (fun v => decide (CY_PDSTACK_TYPEC1_TIMERS_START_ID ≤ v ∧
      v ≤ CY_PDSTACK_PD1_VCONN_OCP_DEBOUNCE_TIMER))

/-- `CY_PDSTACK_GET_PD_TIMER_ID(context, id)`: per-port timer-ID mapping.  For
a context on port 0 the ID is returned unchanged; for any other port the low
byte of the ID is relocated into the port-1 PD bank
(`(((uint16_t)id) & 0x00FFU) + CY_PDSTACK_PD1_TIMERS_START_ID`).  The
`(uint16_t)` casts are the explicit `% 2 ^ 16` truncations. -/
def CY_PDSTACK_GET_PD_TIMER_ID (port : Nat) (id : Nat) : Nat :=
  if port ≠ 0 then ((id % 2 ^ 16) &&& 0x00FF) + CY_PDSTACK_PD1_TIMERS_START_ID
  else id % 2 ^ 16

/-- C6 (counterexample): the claim as stated is false.  The source closes the
port-0 PD timer bank with the inclusive end marker
`CY_PDSTACK_PD_TIMERS_END_ID` = 0x110 and places the reserved PD-stack timer
`CY_PDSTACK_PD_TIMER_RESERVED_16` at 0x110, outside the claimed range
0x100 - 0x10F (its port-1 image 0x210 likewise falls outside 0x200 - 0x20F). -/
theorem C6_timer_bank_counterexample :
    ¬ (∀ v ∈ pd0PdTimerIds, 0x100 ≤ v ∧ v ≤ 0x10F) := by
  decide

/-- C6 (amended): every port-0 PD-stack timer ID lies in 0x100 - 0x110 (the
functional Policy-Engine timers occupy 0x100 - 0x10F; 0x110 is the reserved
slot that is the inclusive end of the bank); the per-port mapping fixes
port-0 IDs and sends every port-0 PD-stack timer ID into the port-1 PD bank
0x200 - 0x210; and the port-0 PD bank, its port-1 image, the Type-C banks of
both ports and the alternate-mode bank start are pairwise disjoint. -/
theorem C6_timer_bank_partition :
    ∀ v ∈ pd0PdTimerIds,
    (0x100 ≤ v ∧ v ≤ 0x110) ∧
    CY_PDSTACK_GET_PD_TIMER_ID 0 v = v ∧
    (0x200 ≤ CY_PDSTACK_GET_PD_TIMER_ID 1 v ∧
      CY_PDSTACK_GET_PD_TIMER_ID 1 v ≤ 0x210) ∧
    CY_PDSTACK_GET_PD_TIMER_ID 1 v ∈ pd1PdTimerIds ∧
    CY_PDSTACK_GET_PD_TIMER_ID 1 v ∉ pd0PdTimerIds ∧
    v ∉ pd1PdTimerIds ∧
    v ∉ typec0TimerIds ∧ v ∉ typec1TimerIds ∧
    CY_PDSTACK_GET_PD_TIMER_ID 1 v ∉ typec0TimerIds ∧
    CY_PDSTACK_GET_PD_TIMER_ID 1 v ∉ typec1TimerIds ∧
    v ≠ CY_PDSTACK_PD_ALTMODE_TIMERS_START_ID ∧
    CY_PDSTACK_GET_PD_TIMER_ID 1 v ≠ CY_PDSTACK_PD_ALTMODE_TIMERS_START_ID := by
  decide

/-- C6 witness: the partition facts evaluated at the cable-capability timer
`CY_PDSTACK_PD_CABLE_TIMER` (0x101), whose port-1 image is
`CY_PDSTACK_PD1_CABLE_TIMER` (0x201). -/
theorem C6_timer_bank_partition_witness :
    (0x100 ≤ CY_PDSTACK_PD_CABLE_TIMER ∧ CY_PDSTACK_PD_CABLE_TIMER ≤ 0x110) ∧
    CY_PDSTACK_GET_PD_TIMER_ID 0 CY_PDSTACK_PD_CABLE_TIMER = CY_PDSTACK_PD_CABLE_TIMER ∧
    (0x200 ≤ CY_PDSTACK_GET_PD_TIMER_ID 1 CY_PDSTACK_PD_CABLE_TIMER ∧
      CY_PDSTACK_GET_PD_TIMER_ID 1 CY_PDSTACK_PD_CABLE_TIMER ≤ 0x210) ∧
    CY_PDSTACK_GET_PD_TIMER_ID 1 CY_PDSTACK_PD_CABLE_TIMER ∈ pd1PdTimerIds ∧
    CY_PDSTACK_GET_PD_TIMER_ID 1 CY_PDSTACK_PD_CABLE_TIMER ∉ pd0PdTimerIds ∧
    CY_PDSTACK_PD_CABLE_TIMER ∉ pd1PdTimerIds ∧
    CY_PDSTACK_PD_CABLE_TIMER ∉ typec0TimerIds ∧
    CY_PDSTACK_PD_CABLE_TIMER ∉ typec1TimerIds ∧
    CY_PDSTACK_GET_PD_TIMER_ID 1 CY_PDSTACK_PD_CABLE_TIMER ∉ typec0TimerIds ∧
    CY_PDSTACK_GET_PD_TIMER_ID 1 CY_PDSTACK_PD_CABLE_TIMER ∉ typec1TimerIds ∧
    CY_PDSTACK_PD_CABLE_TIMER ≠ CY_PDSTACK_PD_ALTMODE_TIMERS_START_ID ∧
    CY_PDSTACK_GET_PD_TIMER_ID 1 CY_PDSTACK_PD_CABLE_TIMER ≠
      CY_PDSTACK_PD_ALTMODE_TIMERS_START_ID :=
  C6_timer_bank_partition CY_PDSTACK_PD_CABLE_TIMER (by decide)

end PdStack
